import Mathlib

/-
Verification of the session lifecycle and status-polling controller of the
docquiz frontend (src/static/js/app.js, class DocumentAIProcessor).

The controller is embedded shallowly as pure state-transition functions.
The mutable fields of the JS object (currentSessionId, statusCheckInterval)
and the DOM elements the code reads and writes (section visibility classes,
input values, rendered lists) form one record `AppState`.  Every network
call is asynchronous in the source, so each operation takes the response it
awaits as an explicit parameter; the status poll is additionally split into
`updateProcessingStatusStart` (the part up to the fetch, which issues the
request) and `updateProcessingStatusHandle` (the continuation after the
await), so that events interleaved between issue and handling can be
expressed.  Issued HTTP requests and displayed toasts are accumulated in
logs inside the state.  Timers: `setInterval` allocates a fresh identifier
and adds it to the set of active timers; `clearInterval` removes one;
the field `statusCheckInterval` holds the identifier the object remembers,
exactly as in the source.
-/

namespace DocQuiz

/-- One entry of the `files` array of a status response: filename, declared
file type, and per-file status string. -/
structure FileRecord where
  filename : String
  file_type : String
  status : String
deriving DecidableEq, Repr

/-- Body of a successful GET /status/{session_id} response. -/
structure StatusResponse where
  status : String
  files : List FileRecord
deriving DecidableEq, Repr

/-- One quiz question of a successful GET /quiz response. -/
structure QuizQuestion where
  question : String
  options : List (String × String)
  correct_answer : String
  explanation : String
deriving DecidableEq, Repr

/-- One entry of a successful GET /saved-sessions response. -/
structure SavedSession where
  session_id : String
  session_name : String
  updated_at : String
deriving DecidableEq, Repr

/-- Outcome of an awaited fetch, as the calling code distinguishes it:
a transport failure (fetch rejects, carrying an error message), a non-2xx
response (`response.ok` false, carrying the status text), or a parsed 2xx
body. -/
inductive HttpResult (α : Type) where
  | transportError : String → HttpResult α
  | httpError : String → HttpResult α
  | ok : α → HttpResult α
deriving DecidableEq, Repr

/-- True on the two failure outcomes, false on a 2xx response. -/
def HttpResult.isErr {α : Type} : HttpResult α → Bool
  | .transportError _ => true
  | .httpError _ => true
  | .ok _ => false

/-- A network request issued by the controller, as recorded in the request
log of the state. -/
inductive Request where
  | upload : Nat → Request
  | status : String → Request
  | summary : String → String → Request
  | quiz : String → String → Request
  | saveSession : String → String → Request
  | savedSessions : Request
deriving DecidableEq, Repr

/-- The whole mutable state the controller touches: the two object fields,
the DOM it reads and writes (visibility of the four sections and the
overlays, input values, rendered lists), the timer system, and the two
event logs (toasts shown, requests issued). -/
structure AppState where
  currentSessionId : Option String
  statusCheckInterval : Option Nat
  nextTimerId : Nat
  activeTimers : List Nat
  uploadSectionHidden : Bool
  processingSectionHidden : Bool
  resultsSectionHidden : Bool
  historyModalHidden : Bool
  loadingOverlayHidden : Bool
  fileListHidden : Bool
  uploadBtnDisabled : Bool
  fileInputValue : List String
  summaryTypeValue : String
  questionCountValue : String
  sessionNameValue : String
  processingStatus : List FileRecord
  summaryContent : String
  summaryResultHidden : Bool
  quizContent : List QuizQuestion
  quizResultHidden : Bool
  historyList : List SavedSession
  toasts : List (String × String)
  requests : List Request
deriving DecidableEq, Repr

/-- The state at page load: constructor sets both fields to null, the HTML
shows the upload section only, with the upload button disabled and no files
selected. -/
def initState : AppState where
  currentSessionId := none
  statusCheckInterval := none
  nextTimerId := 0
  activeTimers := []
  uploadSectionHidden := false
  processingSectionHidden := true
  resultsSectionHidden := true
  historyModalHidden := true
  loadingOverlayHidden := true
  fileListHidden := true
  uploadBtnDisabled := true
  fileInputValue := []
  summaryTypeValue := "medium"
  questionCountValue := "5"
  sessionNameValue := ""
  processingStatus := []
  summaryContent := ""
  summaryResultHidden := true
  quizContent := []
  quizResultHidden := true
  historyList := []
  toasts := []
  requests := []

/-- The browser primitive setInterval: allocates a fresh timer identifier,
adds it to the active set, and returns it.  It never cancels anything. -/
def setInterval (s : AppState) : AppState × Nat :=
  ({ s with activeTimers := s.nextTimerId :: s.activeTimers,
            nextTimerId := s.nextTimerId + 1 }, s.nextTimerId)

/-- The browser primitive clearInterval: removes the given identifier from
the active set (a no-op if it is not active). -/
def clearInterval (tid : Nat) (s : AppState) : AppState :=
  { s with activeTimers := s.activeTimers.erase tid }

/-- Method showToast: appends a toast (message, type) to the toast log. -/
def showToast (message ty : String) (s : AppState) : AppState :=
  { s with toasts := s.toasts ++ [(message, ty)] }

/-- Method showLoadingOverlay. -/
def showLoadingOverlay (s : AppState) : AppState :=
  { s with loadingOverlayHidden := false }

/-- Method hideLoadingOverlay. -/
def hideLoadingOverlay (s : AppState) : AppState :=
  { s with loadingOverlayHidden := true }

/-- Method startStatusChecking: `this.statusCheckInterval = setInterval(...)`.
Note that it overwrites the remembered identifier without clearing any
previously running timer. -/
def startStatusChecking (s : AppState) : AppState :=
  let p := setInterval s
  { p.1 with statusCheckInterval := some p.2 }

/-- Method stopStatusChecking: if a timer identifier is remembered, clear
that timer and forget the identifier. -/
def stopStatusChecking (s : AppState) : AppState :=
  match s.statusCheckInterval with
  | some tid => { clearInterval tid s with statusCheckInterval := none }
  | none => s

/-- Method displayProcessingStatus: re-renders the per-file status list
from the `files` array of the response. -/
def displayProcessingStatus (st : StatusResponse) (s : AppState) : AppState :=
  { s with processingStatus := st.files }

/-- Method showResultsSection: hides the processing section, reveals the
results section. -/
def showResultsSection (s : AppState) : AppState :=
  { s with processingSectionHidden := true, resultsSectionHidden := false }

/-- The part of method updateProcessingStatus up to and including the fetch:
returns unchanged if no current session, otherwise issues the GET /status
request for the session identifier current at call time. -/
def updateProcessingStatusStart (s : AppState) : AppState :=
  match s.currentSessionId with
  | none => s
  | some sid => { s with requests := s.requests ++ [Request.status sid] }

/-- The continuation of method updateProcessingStatus after the awaited
fetch: on a 2xx response it re-renders the file list and, if the aggregate
status is completed, shows the results section and stops the polling timer;
on any failure it only logs to the console (no state change).  It runs
against whatever state holds when the response arrives and does not consult
the current session identifier. -/
def updateProcessingStatusHandle (resp : HttpResult StatusResponse)
    (s : AppState) : AppState :=
  match resp with
  | .ok st =>
      let s1 := displayProcessingStatus st s
      if st.status = "completed" then stopStatusChecking (showResultsSection s1)
      else s1
  | _ => s

/-- Method updateProcessingStatus run to completion with the given awaited
response: the guard and request issue, then the response handling. -/
def updateProcessingStatus (resp : HttpResult StatusResponse)
    (s : AppState) : AppState :=
  match s.currentSessionId with
  | none => s
  | some sid =>
      updateProcessingStatusHandle resp
        { s with requests := s.requests ++ [Request.status sid] }

/-- Method showProcessingSection: hides the upload section, reveals the
processing section, and invokes updateProcessingStatus without awaiting it,
so only the request issue happens here; the response handling is a later
separate `updateProcessingStatusHandle` event. -/
def showProcessingSection (s : AppState) : AppState :=
  updateProcessingStatusStart
    { s with uploadSectionHidden := true, processingSectionHidden := false }

/-- Method handleFileSelection, together with the browser populating
`fileInput.files`: with an empty selection nothing happens; otherwise the
selection is stored, the file list is rendered visible, and the upload
button is enabled. -/
def handleFileSelection (files : List String) (s : AppState) : AppState :=
  if files.length = 0 then s
  else { s with fileInputValue := files, fileListHidden := false,
                uploadBtnDisabled := false }

/-- Method uploadFiles with the awaited POST /upload outcome.  Empty
selection: error toast, nothing else.  Otherwise the request is issued;
on a 2xx body `{session_id}` the session identifier is stored, a success
toast shown, the processing section shown (which fires a status fetch),
the polling timer started, and the form reset; on a non-2xx response the
thrown message is the doubled interpolation the source produces; on a
transport failure the network message is reported. -/
def uploadFiles (resp : HttpResult String) (s : AppState) : AppState :=
  if s.fileInputValue.length = 0 then
    showToast "Please select files to upload" "error" s
  else
    let s1 := showLoadingOverlay s
    let s2 := { s1 with requests := s1.requests ++ [Request.upload s1.fileInputValue.length] }
    match resp with
    | .ok sessionId =>
        let s3 := { s2 with currentSessionId := some sessionId }
        let s4 := showToast "Files uploaded successfully!" "success" s3
        let s5 := showProcessingSection s4
        let s6 := startStatusChecking s5
        let s7 := { s6 with fileInputValue := [], fileListHidden := true,
                            uploadBtnDisabled := true }
        hideLoadingOverlay s7
    | .transportError m =>
        hideLoadingOverlay (showToast ("Upload failed: " ++ m) "error" s2)
    | .httpError statusText =>
        hideLoadingOverlay
          (showToast ("Upload failed: Upload failed: " ++ statusText) "error" s2)

/-- Method displaySummary. -/
def displaySummary (content : String) (s : AppState) : AppState :=
  { s with summaryContent := content, summaryResultHidden := false }

/-- Method generateSummary with the awaited GET /summary outcome: silent
return when no current session; otherwise issues the request with the
selected length class and either displays the content or shows a fixed
error toast. -/
def generateSummary (resp : HttpResult String) (s : AppState) : AppState :=
  match s.currentSessionId with
  | none => s
  | some sid =>
      let s1 := showLoadingOverlay s
      let s2 := { s1 with requests :=
                    s1.requests ++ [Request.summary sid s1.summaryTypeValue] }
      match resp with
      | .ok content => hideLoadingOverlay (displaySummary content s2)
      | _ => hideLoadingOverlay (showToast "Failed to generate summary" "error" s2)

/-- Method displayQuiz. -/
def displayQuiz (questions : List QuizQuestion) (s : AppState) : AppState :=
  { s with quizContent := questions, quizResultHidden := false }

/-- Method generateQuiz with the awaited GET /quiz outcome: silent return
when no current session; otherwise issues the request with the selected
question count and either displays the questions or shows a fixed error
toast. -/
def generateQuiz (resp : HttpResult (List QuizQuestion)) (s : AppState) : AppState :=
  match s.currentSessionId with
  | none => s
  | some sid =>
      let s1 := showLoadingOverlay s
      let s2 := { s1 with requests :=
                    s1.requests ++ [Request.quiz sid s1.questionCountValue] }
      match resp with
      | .ok questions => hideLoadingOverlay (displayQuiz questions s2)
      | _ => hideLoadingOverlay (showToast "Failed to generate quiz" "error" s2)

/-- Removes leading and trailing whitespace from a character list. -/
def trimChars (cs : List Char) : List Char :=
  ((cs.dropWhile Char.isWhitespace).reverse.dropWhile Char.isWhitespace).reverse

/-- The JavaScript String.prototype.trim operation: strips leading and
trailing whitespace. -/
def jsTrim (s : String) : String :=
  String.mk (trimChars s.data)

/-- Method saveSession with the awaited POST /save-session outcome: silent
return when no current session; validation toast and no request when the
name is empty after trimming; otherwise posts the trimmed name against the
current session identifier and reports the outcome. -/
def saveSession (resp : HttpResult Unit) (s : AppState) : AppState :=
  match s.currentSessionId with
  | none => s
  | some sid =>
      let name := jsTrim s.sessionNameValue
      if name = "" then showToast "Please enter a session name" "error" s
      else
        let s1 := { s with requests := s.requests ++ [Request.saveSession sid name] }
        match resp with
        | .ok _ =>
            { showToast "Session saved successfully!" "success" s1 with
                sessionNameValue := "" }
        | _ => showToast "Failed to save session" "error" s1

/-- Method hideHistory. -/
def hideHistory (s : AppState) : AppState :=
  { s with historyModalHidden := true }

/-- Method showHistory with the awaited GET /saved-sessions outcome. -/
def showHistory (resp : HttpResult (List SavedSession)) (s : AppState) : AppState :=
  let s1 := { s with requests := s.requests ++ [Request.savedSessions] }
  match resp with
  | .ok sessions => { s1 with historyList := sessions, historyModalHidden := false }
  | _ => showToast "Failed to load history" "error" s1

/-- Method loadSession with the two awaited status fetches it performs
(the fire-and-forget fetch inside showProcessingSection is issued here and
handled as a later separate event): stores the identifier, closes the
history modal, shows the processing section, runs updateProcessingStatus to
completion on the first response, then fetches status once more and shows
the results section if that second response is 2xx with aggregate status
completed. -/
def loadSession (sessionId : String) (respA respB : HttpResult StatusResponse)
    (s : AppState) : AppState :=
  let s1 := hideHistory { s with currentSessionId := some sessionId }
  let s2 := showProcessingSection s1
  let s3 := updateProcessingStatus respA s2
  let s4 := { s3 with requests := s3.requests ++ [Request.status sessionId] }
  match respB with
  | .ok st => if st.status = "completed" then showResultsSection s4 else s4
  | _ => s4

/-- The visibilitychange listener: when the document becomes hidden the
poll is stopped; when it becomes visible the poll is started again provided
a session is current and the processing section is the one displayed. -/
def onVisibilityChange (documentHidden : Bool) (s : AppState) : AppState :=
  if documentHidden then stopStatusChecking s
  else if s.currentSessionId.isSome && s.processingSectionHidden = false then
    startStatusChecking s
  else s

/-- The client-observed UI phase, read off the section visibility flags. -/
inductive Phase where
  | upload
  | processing
  | results
deriving DecidableEq, Repr

/-- Derives the phase from the rendered sections: results when the results
section is visible, processing when the processing section is visible, and
upload otherwise. -/
def phase (s : AppState) : Phase :=
  if s.resultsSectionHidden = false then Phase.results
  else if s.processingSectionHidden = false then Phase.processing
  else Phase.upload

/-
Concrete states used as test vectors: an initial page, a first successful
upload of one file yielding session s1, and a second successful upload
yielding s2 while the first polling timer is still running.
-/

/-- State after selecting one file and uploading it successfully, the
server answering with session identifier s1. -/
def afterFirstUpload : AppState :=
  uploadFiles (.ok "s1") (handleFileSelection ["a.pdf"] initState)

/-- State after a second file selection and a second successful upload
(session s2) performed while the first polling timer is still active. -/
def afterSecondUpload : AppState :=
  uploadFiles (.ok "s2") (handleFileSelection ["b.pdf"] afterFirstUpload)

/-- Status body of session s2 (still processing, one pending file). -/
def sessionBStatus : StatusResponse :=
  { status := "processing", files := [⟨"b.pdf", "pdf", "pending"⟩] }

/-- Status body of session s1 (still processing, one processing file). -/
def sessionAStatus : StatusResponse :=
  { status := "processing", files := [⟨"a.pdf", "pdf", "processing"⟩] }

/-- State reached by: upload to s1, a poll tick issues its status request
(response still in flight), then loadSession replaces the session with s2
and renders s2's status. -/
def afterLoadB : AppState :=
  loadSession "s2" (.ok sessionBStatus) (.ok sessionBStatus)
    (updateProcessingStatusStart afterFirstUpload)

/-- C1: the claim that every invocation starting status polling first
cancels any previously active timer, so that exactly one polling timer is
active after every successful upload, is false of the code:
startStatusChecking overwrites statusCheckInterval without clearing the
running timer, so after a second successful upload two timers are active
(identifiers 1 and 0) while only identifier 1 is remembered. -/
theorem double_upload_leaves_two_timers :
    afterFirstUpload.activeTimers = [0]
    ∧ afterSecondUpload.activeTimers = [1, 0]
    ∧ afterSecondUpload.statusCheckInterval = some 1 := by decide

/-- C2: the claim that a stale status response is discarded once the
session has changed is false of the code: with s1's poll response in
flight, loading session s2 renders s2's file list, yet handling s1's
response afterwards overwrites the display with s1's files even though the
current session identifier is still s2. -/
theorem stale_response_overwrites_display :
    afterLoadB.currentSessionId = some "s2"
    ∧ afterLoadB.processingStatus = sessionBStatus.files
    ∧ (updateProcessingStatusHandle (.ok sessionAStatus) afterLoadB).currentSessionId
        = some "s2"
    ∧ (updateProcessingStatusHandle (.ok sessionAStatus) afterLoadB).processingStatus
        = sessionAStatus.files
    ∧ sessionAStatus.files ≠ sessionBStatus.files := by decide

/-- C3: submitting with an empty file collection issues no request, shows
the validation toast, and leaves the phase, the section visibility flags,
the session identifier and the timers unchanged. -/
theorem submit_empty_selection_fails_fast (s : AppState) (resp : HttpResult String)
    (h : s.fileInputValue = []) :
    (uploadFiles resp s).requests = s.requests
    ∧ (uploadFiles resp s).toasts
        = s.toasts ++ [("Please select files to upload", "error")]
    ∧ (uploadFiles resp s).currentSessionId = s.currentSessionId
    ∧ phase (uploadFiles resp s) = phase s
    ∧ (uploadFiles resp s).uploadSectionHidden = s.uploadSectionHidden
    ∧ (uploadFiles resp s).processingSectionHidden = s.processingSectionHidden
    ∧ (uploadFiles resp s).resultsSectionHidden = s.resultsSectionHidden
    ∧ (uploadFiles resp s).activeTimers = s.activeTimers
    ∧ (uploadFiles resp s).statusCheckInterval = s.statusCheckInterval := by
  simp [uploadFiles, h, showToast, phase]

/-- Witness for C3 at the initial state. -/
theorem submit_empty_selection_fails_fast_witness :
    (uploadFiles (.ok "s1") initState).requests = initState.requests
    ∧ (uploadFiles (.ok "s1") initState).toasts
        = initState.toasts ++ [("Please select files to upload", "error")]
    ∧ (uploadFiles (.ok "s1") initState).currentSessionId = initState.currentSessionId
    ∧ phase (uploadFiles (.ok "s1") initState) = phase initState
    ∧ (uploadFiles (.ok "s1") initState).uploadSectionHidden = initState.uploadSectionHidden
    ∧ (uploadFiles (.ok "s1") initState).processingSectionHidden
        = initState.processingSectionHidden
    ∧ (uploadFiles (.ok "s1") initState).resultsSectionHidden
        = initState.resultsSectionHidden
    ∧ (uploadFiles (.ok "s1") initState).activeTimers = initState.activeTimers
    ∧ (uploadFiles (.ok "s1") initState).statusCheckInterval
        = initState.statusCheckInterval :=
  submit_empty_selection_fails_fast initState (.ok "s1") rfl

/-- C10: with no current session, generateSummary, generateQuiz and
saveSession return the state unchanged: no request, no toast, no state
change at all. -/
theorem no_session_silent_noop (s : AppState) (h : s.currentSessionId = none) :
    (∀ resp : HttpResult String, generateSummary resp s = s)
    ∧ (∀ resp : HttpResult (List QuizQuestion), generateQuiz resp s = s)
    ∧ (∀ resp : HttpResult Unit, saveSession resp s = s) := by
  refine ⟨fun resp => ?_, fun resp => ?_, fun resp => ?_⟩ <;>
    simp [generateSummary, generateQuiz, saveSession, h]

/-- Witness for C10 at the initial state. -/
theorem no_session_silent_noop_witness :
    generateSummary (.ok "text") initState = initState
    ∧ generateQuiz (.ok []) initState = initState
    ∧ saveSession (.ok ()) initState = initState :=
  ⟨(no_session_silent_noop initState rfl).1 (.ok "text"),
   (no_session_silent_noop initState rfl).2.1 (.ok []),
   (no_session_silent_noop initState rfl).2.2 (.ok ())⟩

/-- C4: a poll tick run against a processing-phase state with the single
active timer remembered in statusCheckInterval: if the response reports
aggregate status completed, the phase becomes Results and the timer is
cancelled, leaving no active timer and no remembered identifier; for any
other reported status the phase stays Processing and the timer keeps
running unchanged. -/
theorem poll_tick_completed_transition (s : AppState) (sid : String) (tid : Nat)
    (st : StatusResponse)
    (hsid : s.currentSessionId = some sid)
    (hint : s.statusCheckInterval = some tid)
    (hact : s.activeTimers = [tid])
    (hproc : s.processingSectionHidden = false)
    (hres : s.resultsSectionHidden = true) :
    (st.status = "completed" →
      phase (updateProcessingStatus (.ok st) s) = Phase.results
      ∧ (updateProcessingStatus (.ok st) s).activeTimers = []
      ∧ (updateProcessingStatus (.ok st) s).statusCheckInterval = none)
    ∧ (st.status ≠ "completed" →
      phase (updateProcessingStatus (.ok st) s) = Phase.processing
      ∧ (updateProcessingStatus (.ok st) s).activeTimers = [tid]
      ∧ (updateProcessingStatus (.ok st) s).statusCheckInterval = some tid) := by
  constructor <;> intro hc <;>
    simp [updateProcessingStatus, updateProcessingStatusHandle,
      displayProcessingStatus, showResultsSection, stopStatusChecking,
      clearInterval, phase, hsid, hint, hact, hproc, hres, hc]

/-- Witness for C4 at the state after the first upload, one response
reporting completed and one reporting processing. -/
theorem poll_tick_completed_transition_witness :
    (phase (updateProcessingStatus (.ok ⟨"completed", []⟩) afterFirstUpload)
        = Phase.results
      ∧ (updateProcessingStatus (.ok ⟨"completed", []⟩) afterFirstUpload).activeTimers = []
      ∧ (updateProcessingStatus (.ok ⟨"completed", []⟩) afterFirstUpload).statusCheckInterval
        = none)
    ∧ (phase (updateProcessingStatus (.ok sessionAStatus) afterFirstUpload)
        = Phase.processing
      ∧ (updateProcessingStatus (.ok sessionAStatus) afterFirstUpload).activeTimers = [0]
      ∧ (updateProcessingStatus (.ok sessionAStatus) afterFirstUpload).statusCheckInterval
        = some 0) :=
  ⟨(poll_tick_completed_transition afterFirstUpload "s1" 0 ⟨"completed", []⟩
      (by decide) (by decide) (by decide) (by decide) (by decide)).1 rfl,
   (poll_tick_completed_transition afterFirstUpload "s1" 0 sessionAStatus
      (by decide) (by decide) (by decide) (by decide) (by decide)).2 (by decide)⟩

/-- C5: an upload attempt over a non-empty selection that ends in a
transport failure or a non-2xx response reports an error toast and commits
nothing: the session identifier, the timers and the section visibility
flags (hence the phase) are unchanged. -/
theorem upload_failure_commits_nothing (s : AppState) (resp : HttpResult String)
    (hne : s.fileInputValue ≠ [])
    (herr : resp.isErr = true) :
    (uploadFiles resp s).currentSessionId = s.currentSessionId
    ∧ (uploadFiles resp s).statusCheckInterval = s.statusCheckInterval
    ∧ (uploadFiles resp s).activeTimers = s.activeTimers
    ∧ (uploadFiles resp s).nextTimerId = s.nextTimerId
    ∧ phase (uploadFiles resp s) = phase s
    ∧ (uploadFiles resp s).uploadSectionHidden = s.uploadSectionHidden
    ∧ (uploadFiles resp s).processingSectionHidden = s.processingSectionHidden
    ∧ (uploadFiles resp s).resultsSectionHidden = s.resultsSectionHidden
    ∧ (∃ m, (uploadFiles resp s).toasts = s.toasts ++ [(m, "error")]) := by
  have hlen : ¬ s.fileInputValue.length = 0 := by
    simpa [List.length_eq_zero] using hne
  cases resp with
  | transportError m =>
      simp [uploadFiles, hlen, showLoadingOverlay, hideLoadingOverlay,
        showToast, phase]
  | httpError m =>
      simp [uploadFiles, hlen, showLoadingOverlay, hideLoadingOverlay,
        showToast, phase]
  | ok sid => simp [HttpResult.isErr] at herr

/-- Witness for C5: an upload of one selected file answered by a 500
response. -/
theorem upload_failure_commits_nothing_witness :
    (uploadFiles (.httpError "Internal Server Error")
        (handleFileSelection ["a.pdf"] initState)).currentSessionId
      = (handleFileSelection ["a.pdf"] initState).currentSessionId
    ∧ (uploadFiles (.httpError "Internal Server Error")
        (handleFileSelection ["a.pdf"] initState)).statusCheckInterval
      = (handleFileSelection ["a.pdf"] initState).statusCheckInterval
    ∧ (uploadFiles (.httpError "Internal Server Error")
        (handleFileSelection ["a.pdf"] initState)).activeTimers
      = (handleFileSelection ["a.pdf"] initState).activeTimers
    ∧ (uploadFiles (.httpError "Internal Server Error")
        (handleFileSelection ["a.pdf"] initState)).nextTimerId
      = (handleFileSelection ["a.pdf"] initState).nextTimerId
    ∧ phase (uploadFiles (.httpError "Internal Server Error")
        (handleFileSelection ["a.pdf"] initState))
      = phase (handleFileSelection ["a.pdf"] initState)
    ∧ (uploadFiles (.httpError "Internal Server Error")
        (handleFileSelection ["a.pdf"] initState)).uploadSectionHidden
      = (handleFileSelection ["a.pdf"] initState).uploadSectionHidden
    ∧ (uploadFiles (.httpError "Internal Server Error")
        (handleFileSelection ["a.pdf"] initState)).processingSectionHidden
      = (handleFileSelection ["a.pdf"] initState).processingSectionHidden
    ∧ (uploadFiles (.httpError "Internal Server Error")
        (handleFileSelection ["a.pdf"] initState)).resultsSectionHidden
      = (handleFileSelection ["a.pdf"] initState).resultsSectionHidden
    ∧ (∃ m, (uploadFiles (.httpError "Internal Server Error")
        (handleFileSelection ["a.pdf"] initState)).toasts
      = (handleFileSelection ["a.pdf"] initState).toasts ++ [(m, "error")]) :=
  upload_failure_commits_nothing (handleFileSelection ["a.pdf"] initState)
    (.httpError "Internal Server Error") (by decide) (by decide)

/-- C6: with a current session, a failing summary or quiz request adds the
fixed error toast and leaves the previously displayed summary and quiz
content (and their visibility) unchanged, while a successful response
overwrites the corresponding display. -/
theorem summary_quiz_failure_preserves_display (s : AppState) (sid : String)
    (hsid : s.currentSessionId = some sid) :
    (∀ resp : HttpResult String, resp.isErr = true →
      (generateSummary resp s).summaryContent = s.summaryContent
      ∧ (generateSummary resp s).summaryResultHidden = s.summaryResultHidden
      ∧ (generateSummary resp s).quizContent = s.quizContent
      ∧ (generateSummary resp s).quizResultHidden = s.quizResultHidden
      ∧ (generateSummary resp s).toasts
          = s.toasts ++ [("Failed to generate summary", "error")])
    ∧ (∀ resp : HttpResult (List QuizQuestion), resp.isErr = true →
      (generateQuiz resp s).quizContent = s.quizContent
      ∧ (generateQuiz resp s).quizResultHidden = s.quizResultHidden
      ∧ (generateQuiz resp s).summaryContent = s.summaryContent
      ∧ (generateQuiz resp s).summaryResultHidden = s.summaryResultHidden
      ∧ (generateQuiz resp s).toasts
          = s.toasts ++ [("Failed to generate quiz", "error")])
    ∧ (∀ content, (generateSummary (.ok content) s).summaryContent = content)
    ∧ (∀ questions, (generateQuiz (.ok questions) s).quizContent = questions) := by
  refine ⟨fun resp herr => ?_, fun resp herr => ?_, fun content => ?_,
    fun questions => ?_⟩
  case _ =>
    cases resp with
    | transportError m =>
        simp [generateSummary, hsid, showLoadingOverlay, hideLoadingOverlay,
          showToast]
    | httpError m =>
        simp [generateSummary, hsid, showLoadingOverlay, hideLoadingOverlay,
          showToast]
    | ok c => simp [HttpResult.isErr] at herr
  case _ =>
    cases resp with
    | transportError m =>
        simp [generateQuiz, hsid, showLoadingOverlay, hideLoadingOverlay,
          showToast]
    | httpError m =>
        simp [generateQuiz, hsid, showLoadingOverlay, hideLoadingOverlay,
          showToast]
    | ok q => simp [HttpResult.isErr] at herr
  case _ =>
    simp [generateSummary, hsid, showLoadingOverlay, hideLoadingOverlay,
      displaySummary]
  case _ =>
    simp [generateQuiz, hsid, showLoadingOverlay, hideLoadingOverlay,
      displayQuiz]

/-- Witness for C6 at the state after the first upload. -/
theorem summary_quiz_failure_preserves_display_witness :
    ((generateSummary (.transportError "offline") afterFirstUpload).summaryContent
        = afterFirstUpload.summaryContent
      ∧ (generateSummary (.transportError "offline") afterFirstUpload).summaryResultHidden
        = afterFirstUpload.summaryResultHidden
      ∧ (generateSummary (.transportError "offline") afterFirstUpload).quizContent
        = afterFirstUpload.quizContent
      ∧ (generateSummary (.transportError "offline") afterFirstUpload).quizResultHidden
        = afterFirstUpload.quizResultHidden
      ∧ (generateSummary (.transportError "offline") afterFirstUpload).toasts
        = afterFirstUpload.toasts ++ [("Failed to generate summary", "error")])
    ∧ ((generateQuiz (.httpError "Bad Gateway") afterFirstUpload).quizContent
        = afterFirstUpload.quizContent
      ∧ (generateQuiz (.httpError "Bad Gateway") afterFirstUpload).quizResultHidden
        = afterFirstUpload.quizResultHidden
      ∧ (generateQuiz (.httpError "Bad Gateway") afterFirstUpload).summaryContent
        = afterFirstUpload.summaryContent
      ∧ (generateQuiz (.httpError "Bad Gateway") afterFirstUpload).summaryResultHidden
        = afterFirstUpload.summaryResultHidden
      ∧ (generateQuiz (.httpError "Bad Gateway") afterFirstUpload).toasts
        = afterFirstUpload.toasts ++ [("Failed to generate quiz", "error")])
    ∧ (generateSummary (.ok "a summary") afterFirstUpload).summaryContent = "a summary" :=
  ⟨(summary_quiz_failure_preserves_display afterFirstUpload "s1" (by decide)).1
      (.transportError "offline") rfl,
   (summary_quiz_failure_preserves_display afterFirstUpload "s1" (by decide)).2.1
      (.httpError "Bad Gateway") rfl,
   (summary_quiz_failure_preserves_display afterFirstUpload "s1" (by decide)).2.2.1
      "a summary"⟩

/-- Status body of a session whose processing has completed. -/
def completedStatus : StatusResponse :=
  { status := "completed", files := [⟨"a.pdf", "pdf", "completed"⟩] }

/-- C7: loadSession stores the given identifier as the current session,
closes the history modal, issues a fresh status fetch for it and renders
the processing list from the response; when the fetched status reports
completed it ends with the results section shown, and it never allocates a
new polling timer (the timer count never grows, and when the session is
still in progress the timers are untouched). -/
theorem loadSession_replaces_and_renders (s : AppState) (sid : String)
    (st : StatusResponse) :
    (loadSession sid (.ok st) (.ok st) s).currentSessionId = some sid
    ∧ (loadSession sid (.ok st) (.ok st) s).historyModalHidden = true
    ∧ Request.status sid ∈ (loadSession sid (.ok st) (.ok st) s).requests
    ∧ (loadSession sid (.ok st) (.ok st) s).nextTimerId = s.nextTimerId
    ∧ ((loadSession sid (.ok st) (.ok st) s).activeTimers).Sublist s.activeTimers
    ∧ (loadSession sid (.ok st) (.ok st) s).processingStatus = st.files
    ∧ (st.status = "completed" →
        (loadSession sid (.ok st) (.ok st) s).resultsSectionHidden = false
        ∧ (loadSession sid (.ok st) (.ok st) s).processingSectionHidden = true)
    ∧ (st.status ≠ "completed" →
        (loadSession sid (.ok st) (.ok st) s).processingSectionHidden = false
        ∧ (loadSession sid (.ok st) (.ok st) s).resultsSectionHidden
            = s.resultsSectionHidden
        ∧ (loadSession sid (.ok st) (.ok st) s).activeTimers = s.activeTimers
        ∧ (loadSession sid (.ok st) (.ok st) s).statusCheckInterval
            = s.statusCheckInterval) := by
  by_cases hc : st.status = "completed" <;>
    cases hsi : s.statusCheckInterval <;>
      simp [loadSession, hideHistory, showProcessingSection,
        updateProcessingStatusStart, updateProcessingStatus,
        updateProcessingStatusHandle, displayProcessingStatus,
        showResultsSection, stopStatusChecking, clearInterval, hc, hsi,
        List.erase_sublist, List.Sublist.refl]

/-- Witness for C7: loading a completed session s2 from the state where s1
is still polling. -/
theorem loadSession_replaces_and_renders_witness :
    (loadSession "s2" (.ok completedStatus) (.ok completedStatus)
        afterFirstUpload).currentSessionId = some "s2"
    ∧ (loadSession "s2" (.ok completedStatus) (.ok completedStatus)
        afterFirstUpload).historyModalHidden = true
    ∧ Request.status "s2" ∈ (loadSession "s2" (.ok completedStatus)
        (.ok completedStatus) afterFirstUpload).requests
    ∧ (loadSession "s2" (.ok completedStatus) (.ok completedStatus)
        afterFirstUpload).nextTimerId = afterFirstUpload.nextTimerId
    ∧ ((loadSession "s2" (.ok completedStatus) (.ok completedStatus)
        afterFirstUpload).activeTimers).Sublist afterFirstUpload.activeTimers
    ∧ (loadSession "s2" (.ok completedStatus) (.ok completedStatus)
        afterFirstUpload).processingStatus = completedStatus.files
    ∧ ((loadSession "s2" (.ok completedStatus) (.ok completedStatus)
        afterFirstUpload).resultsSectionHidden = false
      ∧ (loadSession "s2" (.ok completedStatus) (.ok completedStatus)
        afterFirstUpload).processingSectionHidden = true) :=
  ⟨(loadSession_replaces_and_renders afterFirstUpload "s2" completedStatus).1,
   (loadSession_replaces_and_renders afterFirstUpload "s2" completedStatus).2.1,
   (loadSession_replaces_and_renders afterFirstUpload "s2" completedStatus).2.2.1,
   (loadSession_replaces_and_renders afterFirstUpload "s2" completedStatus).2.2.2.1,
   (loadSession_replaces_and_renders afterFirstUpload "s2" completedStatus).2.2.2.2.1,
   (loadSession_replaces_and_renders afterFirstUpload "s2" completedStatus).2.2.2.2.2.1,
   (loadSession_replaces_and_renders afterFirstUpload "s2" completedStatus).2.2.2.2.2.2.1
     rfl⟩

/-- C8: with a current session, a save whose name trims to empty issues no
request and surfaces the validation toast, a save with a non-empty trimmed
name posts that name against the current session identifier, and in either
case and for either outcome the section visibility flags (hence the phase)
are unchanged. -/
theorem saveSession_validation_and_post (s : AppState) (sid : String)
    (resp : HttpResult Unit) (hsid : s.currentSessionId = some sid) :
    (jsTrim s.sessionNameValue = "" →
      (saveSession resp s).requests = s.requests
      ∧ (saveSession resp s).toasts
          = s.toasts ++ [("Please enter a session name", "error")])
    ∧ (jsTrim s.sessionNameValue ≠ "" →
      (saveSession resp s).requests
        = s.requests ++ [Request.saveSession sid (jsTrim s.sessionNameValue)])
    ∧ phase (saveSession resp s) = phase s
    ∧ (saveSession resp s).uploadSectionHidden = s.uploadSectionHidden
    ∧ (saveSession resp s).processingSectionHidden = s.processingSectionHidden
    ∧ (saveSession resp s).resultsSectionHidden = s.resultsSectionHidden := by
  by_cases ht : jsTrim s.sessionNameValue = "" <;> cases resp <;>
    simp [saveSession, hsid, ht, showToast, phase]

/-- State after the first upload with a whitespace-only session name typed
in. -/
def emptyNameState : AppState :=
  { afterFirstUpload with sessionNameValue := "   " }

/-- State after the first upload with a session name that trims to
"My Docs". -/
def namedState : AppState :=
  { afterFirstUpload with sessionNameValue := " My Docs " }

/-- Witness for C8: a whitespace-only name is rejected without a request,
and a real name is posted, with no phase change. -/
theorem saveSession_validation_and_post_witness :
    ((saveSession (.ok ()) emptyNameState).requests = emptyNameState.requests
      ∧ (saveSession (.ok ()) emptyNameState).toasts
          = emptyNameState.toasts ++ [("Please enter a session name", "error")])
    ∧ (saveSession (.ok ()) namedState).requests
        = namedState.requests
          ++ [Request.saveSession "s1" (jsTrim namedState.sessionNameValue)]
    ∧ phase (saveSession (.ok ()) namedState) = phase namedState :=
  ⟨(saveSession_validation_and_post emptyNameState "s1" (.ok ()) (by decide)).1
      (by decide),
   (saveSession_validation_and_post namedState "s1" (.ok ()) (by decide)).2.1
      (by decide),
   (saveSession_validation_and_post namedState "s1" (.ok ()) (by decide)).2.2.1⟩

/-
Helper lemmas about which operations leave the current session identifier
untouched; shared by the write-discipline theorem below.
-/

/-- stopStatusChecking never writes the session identifier. -/
theorem stopStatusChecking_sessionId (s : AppState) :
    (stopStatusChecking s).currentSessionId = s.currentSessionId := by
  cases h : s.statusCheckInterval <;>
    simp [stopStatusChecking, clearInterval, h]

/-- Handling a status response never writes the session identifier. -/
theorem updateProcessingStatusHandle_sessionId (resp : HttpResult StatusResponse)
    (s : AppState) :
    (updateProcessingStatusHandle resp s).currentSessionId = s.currentSessionId := by
  cases resp with
  | ok st =>
      by_cases hc : st.status = "completed" <;>
        simp [updateProcessingStatusHandle, displayProcessingStatus,
          showResultsSection, hc, stopStatusChecking_sessionId]
  | transportError m => simp [updateProcessingStatusHandle]
  | httpError m => simp [updateProcessingStatusHandle]

/-- A whole poll tick never writes the session identifier. -/
theorem updateProcessingStatus_sessionId (resp : HttpResult StatusResponse)
    (s : AppState) :
    (updateProcessingStatus resp s).currentSessionId = s.currentSessionId := by
  cases h : s.currentSessionId <;>
    simp [updateProcessingStatus, h, updateProcessingStatusHandle_sessionId]

/-- A successful upload over a non-empty selection stores the returned
session identifier. -/
theorem uploadFiles_ok_sessionId (sid : String) (s : AppState)
    (h : s.fileInputValue ≠ []) :
    (uploadFiles (.ok sid) s).currentSessionId = some sid := by
  have hlen : ¬ s.fileInputValue.length = 0 := by
    simpa [List.length_eq_zero] using h
  simp [uploadFiles, hlen, showLoadingOverlay, hideLoadingOverlay, showToast,
    showProcessingSection, updateProcessingStatusStart, startStatusChecking,
    setInterval]

/-- loadSession stores the given session identifier. -/
theorem loadSession_sessionId (sid : String) (rA rB : HttpResult StatusResponse)
    (s : AppState) :
    (loadSession sid rA rB s).currentSessionId = some sid := by
  cases rB with
  | ok st =>
      by_cases hc : st.status = "completed" <;>
        simp [loadSession, hideHistory, showProcessingSection,
          updateProcessingStatusStart, updateProcessingStatus_sessionId,
          showResultsSection, hc]
  | transportError m =>
      simp [loadSession, hideHistory, showProcessingSection,
        updateProcessingStatusStart, updateProcessingStatus_sessionId]
  | httpError m =>
      simp [loadSession, hideHistory, showProcessingSection,
        updateProcessingStatusStart, updateProcessingStatus_sessionId]

/-- generateSummary never writes the session identifier. -/
theorem generateSummary_sessionId (resp : HttpResult String) (s : AppState) :
    (generateSummary resp s).currentSessionId = s.currentSessionId := by
  cases h : s.currentSessionId <;> cases resp <;>
    simp [generateSummary, h, showLoadingOverlay, hideLoadingOverlay,
      displaySummary, showToast]

/-- generateQuiz never writes the session identifier. -/
theorem generateQuiz_sessionId (resp : HttpResult (List QuizQuestion))
    (s : AppState) :
    (generateQuiz resp s).currentSessionId = s.currentSessionId := by
  cases h : s.currentSessionId <;> cases resp <;>
    simp [generateQuiz, h, showLoadingOverlay, hideLoadingOverlay,
      displayQuiz, showToast]

/-- saveSession never writes the session identifier. -/
theorem saveSession_sessionId (resp : HttpResult Unit) (s : AppState) :
    (saveSession resp s).currentSessionId = s.currentSessionId := by
  cases h : s.currentSessionId with
  | none => simp [saveSession, h]
  | some sid =>
      by_cases ht : jsTrim s.sessionNameValue = "" <;> cases resp <;>
        simp [saveSession, h, ht, showToast]

/-- showHistory never writes the session identifier. -/
theorem showHistory_sessionId (resp : HttpResult (List SavedSession))
    (s : AppState) :
    (showHistory resp s).currentSessionId = s.currentSessionId := by
  cases resp <;> simp [showHistory, showToast]

/-- The visibility listener never writes the session identifier. -/
theorem onVisibilityChange_sessionId (b : Bool) (s : AppState) :
    (onVisibilityChange b s).currentSessionId = s.currentSessionId := by
  unfold onVisibilityChange
  split
  · exact stopStatusChecking_sessionId s
  · split
    · simp [startStatusChecking, setInterval]
    · rfl

/-- C9: the current session identifier is written only by the upload and
loadSession operations: a poll tick, and in particular the handling of a
status response, never writes it whatever the response, nor does any of
the other operations of the controller; uploadFiles on success and
loadSession are exactly the writers. -/
theorem session_identifier_write_discipline (s : AppState) :
    (∀ resp : HttpResult StatusResponse,
      (updateProcessingStatusHandle resp s).currentSessionId = s.currentSessionId)
    ∧ (∀ resp : HttpResult StatusResponse,
      (updateProcessingStatus resp s).currentSessionId = s.currentSessionId)
    ∧ (∀ sid : String, s.fileInputValue ≠ [] →
      (uploadFiles (.ok sid) s).currentSessionId = some sid)
    ∧ (∀ (sid : String) (rA rB : HttpResult StatusResponse),
      (loadSession sid rA rB s).currentSessionId = some sid)
    ∧ (updateProcessingStatusStart s).currentSessionId = s.currentSessionId
    ∧ (startStatusChecking s).currentSessionId = s.currentSessionId
    ∧ (stopStatusChecking s).currentSessionId = s.currentSessionId
    ∧ (∀ resp : HttpResult String,
      (generateSummary resp s).currentSessionId = s.currentSessionId)
    ∧ (∀ resp : HttpResult (List QuizQuestion),
      (generateQuiz resp s).currentSessionId = s.currentSessionId)
    ∧ (∀ resp : HttpResult Unit,
      (saveSession resp s).currentSessionId = s.currentSessionId)
    ∧ (∀ resp : HttpResult (List SavedSession),
      (showHistory resp s).currentSessionId = s.currentSessionId)
    ∧ (hideHistory s).currentSessionId = s.currentSessionId
    ∧ (∀ files : List String,
      (handleFileSelection files s).currentSessionId = s.currentSessionId)
    ∧ (∀ b : Bool,
      (onVisibilityChange b s).currentSessionId = s.currentSessionId) := by
  refine ⟨fun resp => updateProcessingStatusHandle_sessionId resp s,
    fun resp => updateProcessingStatus_sessionId resp s,
    fun sid h => uploadFiles_ok_sessionId sid s h,
    fun sid rA rB => loadSession_sessionId sid rA rB s,
    ?_, ?_, stopStatusChecking_sessionId s,
    fun resp => generateSummary_sessionId resp s,
    fun resp => generateQuiz_sessionId resp s,
    fun resp => saveSession_sessionId resp s,
    fun resp => showHistory_sessionId resp s,
    rfl,
    fun files => ?_,
    fun b => onVisibilityChange_sessionId b s⟩
  · cases h : s.currentSessionId <;> simp [updateProcessingStatusStart, h]
  · simp [startStatusChecking, setInterval]
  · by_cases hf : files.length = 0 <;> simp [handleFileSelection, hf]

/-- Witness for C9: a stale-handled response and a full poll tick leave
the identifier at s1, while an upload and a loadSession write it. -/
theorem session_identifier_write_discipline_witness :
    (updateProcessingStatusHandle (.ok sessionAStatus)
        afterFirstUpload).currentSessionId = afterFirstUpload.currentSessionId
    ∧ (updateProcessingStatus (.ok sessionAStatus)
        afterFirstUpload).currentSessionId = afterFirstUpload.currentSessionId
    ∧ (uploadFiles (.ok "s1")
        (handleFileSelection ["a.pdf"] initState)).currentSessionId = some "s1"
    ∧ (loadSession "s2" (.ok sessionBStatus) (.ok sessionBStatus)
        afterFirstUpload).currentSessionId = some "s2" :=
  ⟨(session_identifier_write_discipline afterFirstUpload).1 (.ok sessionAStatus),
   (session_identifier_write_discipline afterFirstUpload).2.1 (.ok sessionAStatus),
   (session_identifier_write_discipline
      (handleFileSelection ["a.pdf"] initState)).2.2.1 "s1" (by decide),
   (session_identifier_write_discipline afterFirstUpload).2.2.2.1 "s2"
      (.ok sessionBStatus) (.ok sessionBStatus)⟩

end DocQuiz
